import Mathlib

/-!
# Verification of the llama-swap SwiftBar plugin state-and-metrics core

Shallow embedding of the state-derivation and metrics-history core of the
plugin (`src/state_model.rs`, `src/types.rs`, `src/models.rs`,
`src/metrics.rs`), together with theorems settling the specification's
claims about it.

Conventions of the embedding:
* Rust `f64` metric values are modelled as `ℚ` (the code performs only
  field arithmetic and comparisons on them; the two places where the code
  manipulates the non-finite `f64` values `INFINITY` / `NEG_INFINITY` are
  modelled with `WithTop ℚ` / `WithBot ℚ`, and `f64::sqrt` is modelled by
  the computable `Rat.sqrt`, whose exact values no claim depends on).
* `VecDeque<TimestampedValue>` becomes `List TimestampedValue`, front =
  head, `push_back` = append at the right end.
* `Instant` / `Duration` quantities become `Nat` milliseconds; Unix
  timestamps become `Nat` seconds.
* `HashMap<String, _>` becomes an association list `List (String × _)`;
  the claims proved about maps only concern membership, never iteration
  order.
* Fallible Rust functions returning `crate::Result` become
  `Except String _`.
-/

namespace LlamaSwap

/-! ## state_model.rs -/

/-- Reason why the agent is not ready (`NotReadyReason`, state_model.rs). -/
inductive NotReadyReason where
  | BinaryNotFound
  | PlistMissing
deriving DecidableEq, Repr

/-- Simplified agent states (`AgentState`, state_model.rs). -/
inductive AgentState where
  | NotReady (reason : NotReadyReason)
  | Stopped
  | Starting
  | Running
deriving DecidableEq, Repr

/-- `AgentState::from_system_check` (state_model.rs lines 21-29): ordered
match over the three status booleans. -/
def AgentState.from_system_check (plist_installed binary_available service_running : Bool) :
    AgentState :=
  match plist_installed, binary_available, service_running with
  | _, _, true => .Running
  | true, true, false => .Stopped
  | false, false, _ => .NotReady .BinaryNotFound
  | false, true, _ => .NotReady .PlistMissing
  | true, false, _ => .NotReady .BinaryNotFound

/-- Display state computed from agent and model states (`DisplayState`,
state_model.rs). -/
inductive DisplayState where
  | AgentNotLoaded
  | AgentStarting
  | ServiceStopped
  | ServiceLoadedNoModel
  | ModelLoading
  | ModelProcessingQueue
  | ModelReady
deriving DecidableEq, Repr

/-- Simplified polling mode (`PollingMode`, state_model.rs). -/
inductive PollingMode where
  | Idle
  | Active
  | Starting
deriving DecidableEq, Repr

/-- `PollingMode::compute` (state_model.rs lines 97-111).  Durations in
milliseconds; `STATE_CHANGE_DURATION` = 5 s = 5000 ms.  The ordered Rust
match over `(state_changed, has_activity, last_change_elapsed < 5s)` is
reproduced arm for arm; the current mode parameter is ignored by the
source (`_current`). -/
def PollingMode.compute (_current : PollingMode) (state_changed has_activity : Bool)
    (last_change_elapsed_ms : Nat) : PollingMode :=
  match state_changed, has_activity, decide (last_change_elapsed_ms < 5000) with
  | true, _, _ => .Starting
  | _, _, true => .Starting
  | _, true, _ => .Active
  | _, _, _ => .Idle

/-- Simple model state (`ModelState`, state_model.rs). -/
inductive ModelState where
  | Unknown
  | Loading
  | Running
deriving DecidableEq, Repr

/-- `ModelState::is_loading` (state_model.rs lines 123-125). -/
def ModelState.is_loading : ModelState → Bool
  | .Loading => true
  | _ => false

/-! ## types.rs : ServiceStatus and the agent-state update -/

/-- `ServiceStatus` (types.rs lines 10-15): four independent boolean
health signals. -/
structure ServiceStatus where
  plist_installed : Bool
  launchctl_loaded : Bool
  process_running : Bool
  api_responsive : Bool
deriving DecidableEq, Repr

/-- `ServiceStatus::is_fully_running` (types.rs lines 35-37). -/
def ServiceStatus.is_fully_running (s : ServiceStatus) : Bool :=
  s.plist_installed && s.launchctl_loaded && s.process_running && s.api_responsive

/-- The state transition performed by `PluginState::update_agent_state`
(types.rs lines 250-274), as a pure function of the previous agent state
and the freshly probed booleans.  The source computes
`new_state = AgentState::from_system_check(..)` and then, in the branch
guarded by `matches!(old_state, Stopped) && matches!(new_state, Running)`,
assigns `AgentState::Running` directly (source comment:
"Direct transition to Running"); otherwise it assigns `new_state`. -/
def update_agent_state (old_state : AgentState)
    (plist_installed binary_available service_running : Bool) : AgentState :=
  let new_state := AgentState.from_system_check plist_installed binary_available service_running
  if old_state = AgentState.Stopped ∧ new_state = AgentState.Running then
    AgentState.Running
  else
    new_state

/-! ## Claim C1 -/

/-- C1 counterexample.  The claim states that when the agent state is
`Stopped` and the newly derived raw state is `Running` (service fully
operational), the state computed by that cycle is `Starting`, not
`Running`.  On the code this is false: with previous state `Stopped` and
all three probed booleans true (so the raw state is `Running`),
`update_agent_state` computes `Running` directly, and `Running ≠ Starting`. -/
theorem update_agent_state_stopped_to_running_counterexample :
    AgentState.from_system_check true true true = AgentState.Running ∧
      update_agent_state AgentState.Stopped true true true = AgentState.Running ∧
      update_agent_state AgentState.Stopped true true true ≠ AgentState.Starting := by
  refine ⟨rfl, rfl, ?_⟩
  decide

/-- C1 amended: for every update cycle in which the agent state is
`Stopped` and the newly derived raw state is `Running`, the agent state
computed by that cycle is `Running` itself — the transition is direct,
with no intermediate `Starting` dwell. -/
theorem update_agent_state_stopped_to_running_direct
    (plist_installed binary_available service_running : Bool)
    (h : AgentState.from_system_check plist_installed binary_available service_running =
      AgentState.Running) :
    update_agent_state AgentState.Stopped plist_installed binary_available service_running =
      AgentState.Running := by
  unfold update_agent_state
  rw [h]
  simp

/-- C1 amended, witness at the fully-operational input. -/
theorem update_agent_state_stopped_to_running_direct_witness :
    update_agent_state AgentState.Stopped true true true = AgentState.Running :=
  update_agent_state_stopped_to_running_direct true true true (by decide)

/-! ## Claim C8 -/

/-- C8: `AgentState::from_system_check` is a total function over the
2×2×2 boolean input space — every combination of the three status
booleans yields exactly one well-defined `AgentState` variant drawn from
`NotReady {reason}`, `Stopped`, `Starting`, `Running` (totality means no
undefined combination; derivation in Lean rules out any panic path). -/
theorem from_system_check_total (plist_installed binary_available service_running : Bool) :
    AgentState.from_system_check plist_installed binary_available service_running =
        AgentState.Running ∨
      AgentState.from_system_check plist_installed binary_available service_running =
        AgentState.Stopped ∨
      AgentState.from_system_check plist_installed binary_available service_running =
        AgentState.Starting ∨
      AgentState.from_system_check plist_installed binary_available service_running =
        AgentState.NotReady NotReadyReason.BinaryNotFound ∨
      AgentState.from_system_check plist_installed binary_available service_running =
        AgentState.NotReady NotReadyReason.PlistMissing := by
  revert plist_installed binary_available service_running
  decide

/-! ## Claim C4 -/

/-- C4: for every input, `PollingMode::compute` returns `Starting`
whenever a state change was just detected; `Starting` whenever the 5 s
dwell since the last state change has not elapsed, regardless of
activity; otherwise `Active` if there is activity and `Idle` if not
(and the current mode never affects the result). -/
theorem pollingMode_compute_spec (current : PollingMode) (state_changed has_activity : Bool)
    (last_change_elapsed_ms : Nat) :
    PollingMode.compute current state_changed has_activity last_change_elapsed_ms =
      (if state_changed then PollingMode.Starting
       else if last_change_elapsed_ms < 5000 then PollingMode.Starting
       else if has_activity then PollingMode.Active
       else PollingMode.Idle) := by
  cases state_changed <;> cases has_activity <;>
    by_cases h : last_change_elapsed_ms < 5000 <;>
      simp [PollingMode.compute, h]

/-! ## models.rs : timestamped series and the bounded push -/

/-- `TimestampedValue` (models.rs lines 140-144). -/
structure TimestampedValue where
  timestamp : Nat
  value : ℚ
deriving DecidableEq, Repr

/-- The `while deque.len() > max_size { deque.pop_front(); }` loop shared
by the two `push_value` helpers (models.rs lines 300-303 and 527-530). -/
def shrink_to_max : List TimestampedValue → Nat → List TimestampedValue
  | [], _ => []
  | v :: rest, max_size =>
    if (v :: rest).length > max_size then shrink_to_max rest max_size else v :: rest

/-- `MetricsHistory::push_value` (models.rs lines 524-531): push the new
sample at the back, then pop from the front while over capacity. -/
def push_value (deque : List TimestampedValue) (value : ℚ) (timestamp : Nat)
    (max_size : Nat) : List TimestampedValue :=
  shrink_to_max (deque ++ [{ timestamp := timestamp, value := value }]) max_size

/-- A sequence of `push_value` calls starting from an empty series, one
per `(timestamp, value)` pair in order. -/
def push_all (samples : List (Nat × ℚ)) (max_size : Nat) : List TimestampedValue :=
  samples.foldl (fun deque p => push_value deque p.2 p.1 max_size) []

/-- The shrink loop keeps exactly the last `max_size` elements. -/
theorem shrink_to_max_eq_drop (deque : List TimestampedValue) (max_size : Nat) :
    shrink_to_max deque max_size = deque.drop (deque.length - max_size) := by
  induction deque with
  | nil => simp [shrink_to_max]
  | cons v rest ih =>
    simp only [shrink_to_max, List.length_cons]
    by_cases h : max_size < rest.length + 1
    · rw [if_pos h, ih]
      have hlen : rest.length + 1 - max_size = (rest.length - max_size) + 1 := by omega
      rw [hlen, List.drop_succ_cons]
    · rw [if_neg h]
      have hlen : rest.length + 1 - max_size = 0 := by omega
      rw [hlen, List.drop_zero]

/-- Folding `push_value` over a sample list keeps the last
`max_size` samples of the concatenated stream. -/
theorem push_all_from_eq_drop (max_size : Nat) (samples : List (Nat × ℚ))
    (start : List TimestampedValue) (hstart : start.length ≤ max_size) :
    samples.foldl (fun deque p => push_value deque p.2 p.1 max_size) start =
      (start ++ samples.map fun p => ({ timestamp := p.1, value := p.2 } : TimestampedValue)).drop
        ((start.length + samples.length) - max_size) := by
  induction samples generalizing start with
  | nil =>
    have h0 : start.length + ([] : List (Nat × ℚ)).length - max_size = 0 := by
      simp only [List.length_nil]
      omega
    rw [List.foldl_nil, h0, List.drop_zero, List.map_nil, List.append_nil]
  | cons p rest ih =>
    have hpush : push_value start p.2 p.1 max_size =
        (start ++ [({ timestamp := p.1, value := p.2 } : TimestampedValue)]).drop
          ((start.length + 1) - max_size) := by
      rw [push_value, shrink_to_max_eq_drop]
      simp
    have hlen : (push_value start p.2 p.1 max_size).length =
        (start.length + 1) - ((start.length + 1) - max_size) := by
      rw [hpush]
      simp
    have hle : (push_value start p.2 p.1 max_size).length ≤ max_size := by
      rw [hlen]; omega
    rw [List.foldl_cons, ih _ hle, hlen, hpush]
    rw [← List.drop_append_of_le_length
      (by simp only [List.length_append, List.length_cons, List.length_nil]; omega),
      List.drop_drop]
    have harith : start.length + 1 - max_size +
        (start.length + 1 - (start.length + 1 - max_size) + rest.length - max_size) =
        start.length + (rest.length + 1) - max_size := by
      omega
    simp only [List.append_assoc, List.singleton_append, List.map_cons,
      List.length_cons, harith]

/-! ## Claim C3 -/

/-- C3: for every capacity `C` and every sequence of `N > C` pushes into
an initially empty series, after all pushes the series length equals `C`
and the stored values are exactly the last `C` pushed values in push
order (strict FIFO eviction from the old end). -/
theorem push_all_bounded_fifo (C : Nat) (samples : List (Nat × ℚ)) (hN : C < samples.length) :
    (push_all samples C).length = C ∧
      push_all samples C =
        (samples.map fun p => { timestamp := p.1, value := p.2 }).drop (samples.length - C) := by
  have h := push_all_from_eq_drop C samples [] (by simp)
  simp only [push_all, List.nil_append, List.length_nil, Nat.zero_add] at h ⊢
  refine ⟨?_, h⟩
  rw [h]
  simp
  omega

/-- C3 witness: capacity 3, four pushes (the spec's scenario
`(100,1) (200,2) (300,3) (400,4)`) leave exactly the last three samples. -/
theorem push_all_bounded_fifo_witness :
    (push_all [(100, 1), (200, 2), (300, 3), (400, 4)] 3).length = 3 ∧
      push_all [(100, 1), (200, 2), (300, 3), (400, 4)] 3 =
        (([(100, 1), (200, 2), (300, 3), (400, 4)] : List (Nat × ℚ)).map
          fun p => { timestamp := p.1, value := p.2 }).drop
          (([(100, 1), (200, 2), (300, 3), (400, 4)] : List (Nat × ℚ)).length - 3) :=
  push_all_bounded_fifo 3 [(100, 1), (200, 2), (300, 3), (400, 4)] (by decide)

/-! ## models.rs : metrics records and histories -/

/-- `Metrics` (models.rs lines 57-66).  `u32` counters become `Nat`,
`f64` rates/ratios become `ℚ`. -/
structure Metrics where
  prompt_tokens_per_sec : ℚ
  predicted_tokens_per_sec : ℚ
  requests_processing : Nat
  requests_deferred : Nat
  kv_cache_usage_ratio : ℚ
  kv_cache_tokens : Nat
  n_decode_total : Nat
  memory_mb : ℚ
deriving DecidableEq, Repr

/-- Per-model state as reported by the probe (`crate::models::ModelState`
used by `update_model_states`); mirrors `ModelState` of state_model.rs. -/
inductive ProbedModelState where
  | Loading
  | Running
  | Unknown
deriving DecidableEq, Repr

/-- `ModelMetrics` (models.rs lines 30-34). -/
structure ModelMetrics where
  model_name : String
  metrics : Metrics
deriving DecidableEq, Repr

/-- `SystemMetrics` (models.rs lines 37-47). -/
structure SystemMetrics where
  cpu_usage_percent : ℚ
  total_memory_gb : ℚ
  used_memory_gb : ℚ
  available_memory_gb : ℚ
  memory_usage_percent : ℚ
  gpu_usage_percent : Option ℚ
  gpu_memory_used_gb : Option ℚ
  gpu_memory_total_gb : Option ℚ
  load_average_1m : Option ℚ
deriving DecidableEq, Repr

/-- `AllModelMetrics` (models.rs lines 50-54), the decoded probe result
(`AllMetrics` at its use sites in types.rs). -/
structure AllMetrics where
  models : List ModelMetrics
  total_llama_memory_mb : ℚ
  system_metrics : SystemMetrics
deriving DecidableEq, Repr

/-- `MetricsHistory` (models.rs lines 147-155): one bundle of four
timestamped series for one model. -/
structure MetricsHistory where
  tps : List TimestampedValue
  prompt_tps : List TimestampedValue
  memory_mb : List TimestampedValue
  kv_cache_percent : List TimestampedValue
  max_size : Nat
deriving DecidableEq, Repr

/-- `AllModelMetricsHistory` (models.rs lines 170-184): the global
series plus the per-model bundle map (`AllMetricsHistory` at its use
sites in types.rs). -/
structure AllModelMetricsHistory where
  models : List (String × MetricsHistory)
  total_llama_memory_mb : List TimestampedValue
  cpu_usage_percent : List TimestampedValue
  memory_usage_percent : List TimestampedValue
  used_memory_gb : List TimestampedValue
  gpu_usage_percent : List TimestampedValue
  gpu_memory_used_gb : List TimestampedValue
  load_average_1m : List TimestampedValue
  max_size : Nat
deriving DecidableEq, Repr

/-! ## types.rs : PluginState and its per-iteration mutations -/

/-- The in-memory core of `PluginState` (types.rs lines 87-101).  The
`http_client` handle and the `Instant` bookkeeping field
`last_state_change` carry no data any claim quantifies over and are
omitted; every other field is kept. -/
structure PluginState where
  metrics_history : AllModelMetricsHistory
  current_all_metrics : Option AllMetrics
  error_count : Nat
  agent_state : AgentState
  polling_mode : PollingMode
  model_states : List (String × ModelState)
  service_status : ServiceStatus
deriving DecidableEq, Repr

/-- `PluginState::has_queue_activity` (types.rs lines 156-164). -/
def PluginState.has_queue_activity (s : PluginState) : Bool :=
  match s.current_all_metrics with
  | none => false
  | some all_metrics =>
    all_metrics.models.any fun model =>
      model.metrics.requests_processing > 0 || model.metrics.requests_deferred > 0

/-- `PluginState::has_loading_models` (types.rs lines 360-362). -/
def PluginState.has_loading_models (s : PluginState) : Bool :=
  s.model_states.any fun p => p.2.is_loading

/-- `PluginState::handle_metrics_error` (types.rs lines 303-317): count
the failure, clear the per-model state map and the current snapshot;
everything else (in particular `metrics_history`) is left untouched.
The error argument is only logged by the source and is ignored here. -/
def PluginState.handle_metrics_error (s : PluginState) (_error : String) : PluginState :=
  { s with
    error_count := s.error_count + 1
    model_states := []
    current_all_metrics := none }

/-- `PluginState::get_display_state` (types.rs lines 341-358).  The
source `match` on `self.agent_state` has arms for `NotReady`, `Stopped`
and `Running` only; the `Starting` variant of `AgentState` has no arm
(dead in this revision), which the embedding records as `none`. -/
def PluginState.get_display_state (s : PluginState) : Option DisplayState :=
  match s.agent_state with
  | .NotReady _ => some .AgentNotLoaded
  | .Stopped => some .ServiceStopped
  | .Running =>
    some
      (if s.model_states.isEmpty then .ServiceLoadedNoModel
       else if s.has_loading_models then .ModelLoading
       else if s.has_queue_activity then .ModelProcessingQueue
       else .ModelReady)
  | .Starting => none

/-! ## Claim C2 -/

/-- C2: for every state and every probe failure, `handle_metrics_error`
increments the error counter by exactly one, clears only the
current-snapshot fields (current metrics set to `none`, per-model state
map emptied), and leaves the stored metrics history — and every other
field — unchanged; history is never wiped on failure. -/
theorem handle_metrics_error_spec (s : PluginState) (error : String) :
    (s.handle_metrics_error error).error_count = s.error_count + 1 ∧
      (s.handle_metrics_error error).model_states = [] ∧
      (s.handle_metrics_error error).current_all_metrics = none ∧
      (s.handle_metrics_error error).metrics_history = s.metrics_history ∧
      (s.handle_metrics_error error).agent_state = s.agent_state ∧
      (s.handle_metrics_error error).polling_mode = s.polling_mode ∧
      (s.handle_metrics_error error).service_status = s.service_status :=
  ⟨rfl, rfl, rfl, rfl, rfl, rfl, rfl⟩

/-! ## Claim C5 -/

/-- C5: with agent state `Running`, `get_display_state` yields
`ServiceLoadedNoModel` on an empty model map; `ModelLoading` whenever
some model is loading (regardless of the activity flag — loading takes
priority over activity and ready); otherwise `ModelProcessingQueue` when
there is queue activity and `ModelReady` when there is none. -/
theorem get_display_state_running_spec (s : PluginState)
    (hrun : s.agent_state = AgentState.Running) :
    (s.model_states = [] → s.get_display_state = some DisplayState.ServiceLoadedNoModel) ∧
      (s.model_states ≠ [] → s.has_loading_models = true →
        s.get_display_state = some DisplayState.ModelLoading) ∧
      (s.model_states ≠ [] → s.has_loading_models = false → s.has_queue_activity = true →
        s.get_display_state = some DisplayState.ModelProcessingQueue) ∧
      (s.model_states ≠ [] → s.has_loading_models = false → s.has_queue_activity = false →
        s.get_display_state = some DisplayState.ModelReady) := by
  unfold PluginState.get_display_state
  rw [hrun]
  refine ⟨?_, ?_, ?_, ?_⟩
  · intro hempty
    simp [hempty]
  · intro hne hload
    simp [List.isEmpty_iff, hne, hload]
  · intro hne hload hact
    simp [List.isEmpty_iff, hne, hload, hact]
  · intro hne hload hact
    simp [List.isEmpty_iff, hne, hload, hact]

/-- Concrete state for the C5 witness: agent `Running`, one loading
model, activity flag true (one request processing). -/
def sampleLoadingState : PluginState :=
  { metrics_history :=
      { models := []
        total_llama_memory_mb := []
        cpu_usage_percent := []
        memory_usage_percent := []
        used_memory_gb := []
        gpu_usage_percent := []
        gpu_memory_used_gb := []
        load_average_1m := []
        max_size := 300 }
    current_all_metrics := some
      { models :=
          [{ model_name := "m1"
             metrics :=
               { prompt_tokens_per_sec := 0
                 predicted_tokens_per_sec := 0
                 requests_processing := 1
                 requests_deferred := 0
                 kv_cache_usage_ratio := 0
                 kv_cache_tokens := 0
                 n_decode_total := 0
                 memory_mb := 0 } }]
        total_llama_memory_mb := 0
        system_metrics :=
          { cpu_usage_percent := 0
            total_memory_gb := 0
            used_memory_gb := 0
            available_memory_gb := 0
            memory_usage_percent := 0
            gpu_usage_percent := none
            gpu_memory_used_gb := none
            gpu_memory_total_gb := none
            load_average_1m := none } }
    error_count := 0
    agent_state := AgentState.Running
    polling_mode := PollingMode.Active
    model_states := [("m1", ModelState.Loading)]
    service_status :=
      { plist_installed := true
        launchctl_loaded := true
        process_running := true
        api_responsive := true } }

/-- C5 witness: on `sampleLoadingState` (activity true, one model
loading) the display state is `ModelLoading` — loading beats activity. -/
theorem get_display_state_running_spec_witness :
    sampleLoadingState.has_queue_activity = true ∧
      sampleLoadingState.get_display_state = some DisplayState.ModelLoading :=
  ⟨rfl, (get_display_state_running_spec sampleLoadingState rfl).2.1 (by decide) rfl⟩

/-! ## models.rs : retention-window trimming -/

/-- The `while front.timestamp < cutoff { pop_front }` loop shared by the
two `trim_deque` helpers (models.rs lines 331-335 and 547-551). -/
def trim_deque : List TimestampedValue → Nat → List TimestampedValue
  | [], _ => []
  | v :: rest, cutoff =>
    if v.timestamp < cutoff then trim_deque rest cutoff else v :: rest

/-- `MetricsHistory::trim_old_data` (models.rs lines 534-545), with the
wall clock passed explicitly: `cutoff = now.saturating_sub(300)`. -/
def MetricsHistory.trim_old_data (h : MetricsHistory) (now : Nat) : MetricsHistory :=
  let cutoff := now - 300
  { h with
    tps := trim_deque h.tps cutoff
    prompt_tps := trim_deque h.prompt_tps cutoff
    memory_mb := trim_deque h.memory_mb cutoff
    kv_cache_percent := trim_deque h.kv_cache_percent cutoff }

/-- `AllModelMetricsHistory::trim_old_data` (models.rs lines 307-329):
trim every global series, trim every per-model bundle, then
`retain(|_, history| !history.tps.is_empty())`. -/
def AllModelMetricsHistory.trim_old_data (h : AllModelMetricsHistory) (now : Nat) :
    AllModelMetricsHistory :=
  let cutoff := now - 300
  { h with
    total_llama_memory_mb := trim_deque h.total_llama_memory_mb cutoff
    cpu_usage_percent := trim_deque h.cpu_usage_percent cutoff
    memory_usage_percent := trim_deque h.memory_usage_percent cutoff
    used_memory_gb := trim_deque h.used_memory_gb cutoff
    gpu_usage_percent := trim_deque h.gpu_usage_percent cutoff
    gpu_memory_used_gb := trim_deque h.gpu_memory_used_gb cutoff
    load_average_1m := trim_deque h.load_average_1m cutoff
    models :=
      (h.models.map fun p => (p.1, p.2.trim_old_data now)).filter
        fun p => !p.2.tps.isEmpty }

/-- All four series of a bundle empty (the claim's "every series inside
it is empty"). -/
def MetricsHistory.all_series_empty (h : MetricsHistory) : Bool :=
  h.tps.isEmpty && h.prompt_tps.isEmpty && h.memory_mb.isEmpty && h.kv_cache_percent.isEmpty

/-! ## Claim C6 -/

/-- A bundle whose `tps` series is empty but whose `memory_mb` series
still holds a fresh sample. -/
def staleTpsBundle : MetricsHistory :=
  { tps := []
    prompt_tps := []
    memory_mb := [{ timestamp := 1000, value := 5 }]
    kv_cache_percent := []
    max_size := 300 }

/-- History holding only that bundle, under the name "m". -/
def staleTpsHistory : AllModelMetricsHistory :=
  { models := [("m", staleTpsBundle)]
    total_llama_memory_mb := []
    cpu_usage_percent := []
    memory_usage_percent := []
    used_memory_gb := []
    gpu_usage_percent := []
    gpu_memory_used_gb := []
    load_average_1m := []
    max_size := 300 }

/-- C6 counterexample.  The claim states that after a retention trim a
bundle remains in the map iff not every series inside it is empty.  On
the code it is false: retention is decided by the `tps` series alone.
At `now = 1000`, the bundle "m" has an empty `tps` series but a fresh
`memory_mb` sample (timestamp 1000 ≥ cutoff 700) — after the trim its
series are not all empty, yet it is dropped from the map. -/
theorem trim_old_data_retention_counterexample :
    (staleTpsHistory.trim_old_data 1000).models = [] ∧
      (staleTpsBundle.trim_old_data 1000).all_series_empty = false := by
  constructor
  · rfl
  · rfl

/-- C6 amended: after `AllModelMetricsHistory::trim_old_data`, a bundle
remains in the map (with its trimmed contents) if and only if its
trimmed `tps` series is non-empty — the other three series play no role
in the retention decision. -/
theorem trim_old_data_retention_spec (h : AllModelMetricsHistory) (now : Nat)
    (p : String × MetricsHistory) :
    p ∈ (h.trim_old_data now).models ↔
      (∃ q ∈ h.models, (q.1, q.2.trim_old_data now) = p) ∧ p.2.tps ≠ [] := by
  simp only [AllModelMetricsHistory.trim_old_data, List.mem_filter, List.mem_map,
    Bool.not_eq_true', ne_eq]
  constructor
  · rintro ⟨⟨q, hq, hqp⟩, hne⟩
    refine ⟨⟨q, hq, hqp⟩, fun hnil => ?_⟩
    rw [hnil] at hne
    simp at hne
  · rintro ⟨⟨q, hq, hqp⟩, hne⟩
    refine ⟨⟨q, hq, hqp⟩, ?_⟩
    cases htps : p.2.tps with
    | nil => exact absurd htps hne
    | cons a l => rfl

/-! ## models.rs : anomaly detection -/

/-- `MetricsHistory::detect_anomaly` (models.rs lines 686-705).  The
series passed in holds the current value as its newest (last) sample;
the mean is taken over the `min(len - 1, 10)` samples that precede it
(`skip(start_idx).take(recent_count)` over the deque), and the f64
literals `1.5` and `0.5` are exactly `3/2` and `1/2`. -/
def detect_anomaly (deque : List TimestampedValue) (current : ℚ) : Bool :=
  if deque.length < 5 then false
  else
    let recent_count := min (deque.length - 1) 10
    let start_idx := deque.length - 1 - recent_count
    let recent_sum : ℚ :=
      (((deque.drop start_idx).take recent_count).map fun tv => tv.value).sum
    let recent_avg := recent_sum / (recent_count : ℚ)
    decide (current > recent_avg * (3 / 2) ∨ current < recent_avg * (1 / 2))

/-- The recent mean as the specification words it: the mean of the most
recent at-most-10 samples of the series excluding the current (= last)
value. -/
def recent_mean_spec (deque : List TimestampedValue) : ℚ :=
  let priors := deque.dropLast
  let window := priors.drop (priors.length - min priors.length 10)
  ((window.map fun tv => tv.value).sum) / (window.length : ℚ)

/-! ## Claim C7 -/

/-- Series with only 4 prior samples (all 1) before the current value 10. -/
def anomalyDeque : List TimestampedValue :=
  [{ timestamp := 1, value := 1 }, { timestamp := 2, value := 1 },
   { timestamp := 3, value := 1 }, { timestamp := 4, value := 1 },
   { timestamp := 5, value := 10 }]

/-- C7 counterexample.  The claim states the anomaly check returns false
unless the series holds at least 5 prior samples (excluding the current
value).  On the code it is false: `anomalyDeque` holds only 4 prior
samples (its length is 5 counting the current value 10 as the last
sample), yet `detect_anomaly` flags an anomaly (10 > 1.5 × mean 1). -/
theorem detect_anomaly_counterexample :
    anomalyDeque.length - 1 < 5 ∧ detect_anomaly anomalyDeque 10 = true := by
  constructor
  · decide
  · norm_num [detect_anomaly, anomalyDeque]

/-- C7 amended: `detect_anomaly` returns false unless the series holds
at least 4 prior samples (total length ≥ 5 counting the current value as
the last sample); with enough history it flags an anomaly exactly when
the current value exceeds 1.5 times the mean of the most recent
at-most-10 samples excluding the current value, or is below 0.5 times
that mean. -/
theorem detect_anomaly_spec (deque : List TimestampedValue) (current : ℚ) :
    detect_anomaly deque current = true ↔
      5 ≤ deque.length ∧
        (current > recent_mean_spec deque * (3 / 2) ∨
          current < recent_mean_spec deque * (1 / 2)) := by
  by_cases h5 : deque.length < 5
  · simp only [detect_anomaly, if_pos h5]
    constructor
    · intro h
      exact absurd h (by simp)
    · rintro ⟨hlen, -⟩
      omega
  · have hwin : (deque.drop (deque.length - 1 - min (deque.length - 1) 10)).take
        (min (deque.length - 1) 10) =
        deque.dropLast.drop (deque.dropLast.length - min deque.dropLast.length 10) := by
      have hmin : min (deque.length - 1) deque.length = deque.length - 1 :=
        Nat.min_eq_left (by omega)
      have hm : min (deque.length - 1) 10 ≤ deque.length - 1 := Nat.min_le_left _ _
      rw [List.dropLast_eq_take, List.length_take, List.drop_take, hmin]
      have harith2 : deque.length - 1 - (deque.length - 1 - min (deque.length - 1) 10) =
          min (deque.length - 1) 10 := by omega
      rw [harith2]
    have hlen : (deque.dropLast.drop
        (deque.dropLast.length - min deque.dropLast.length 10)).length =
        min (deque.length - 1) 10 := by
      have hm : min (deque.length - 1) 10 ≤ deque.length - 1 := Nat.min_le_left _ _
      rw [List.length_drop, List.length_dropLast]
      omega
    simp only [detect_anomaly, if_neg h5, recent_mean_spec, hwin, hlen,
      decide_eq_true_eq]
    constructor
    · intro h
      exact ⟨by omega, by rw [mul_comm] at h ⊢; exact h⟩
    · rintro ⟨-, h⟩
      exact h

/-! ## models.rs : statistics -/

/-- `MetricStats` (models.rs lines 885-892).  The `min` and `max`
fields are folds seeded with `f64::INFINITY` / `f64::NEG_INFINITY` in
the source, so they live in `WithTop ℚ` / `WithBot ℚ`. -/
structure MetricStats where
  mean : ℚ
  min : WithTop ℚ
  max : WithBot ℚ
  std_dev : ℚ
  count : Nat
deriving DecidableEq

/-- `#[derive(Default)]` for `MetricStats`: every numeric field zero. -/
def MetricStats.default : MetricStats :=
  { mean := 0, min := ((0 : ℚ) : WithTop ℚ), max := ((0 : ℚ) : WithBot ℚ), std_dev := 0
    count := 0 }

/-- Model of `f64::sqrt` on rationals via the computable `Rat.sqrt`.
No claim depends on the value of a square root — only the empty-series
early return of `calculate_stats` is at issue — so the float rounding of
`sqrt` is not modelled further. -/
def f64_sqrt (q : ℚ) : ℚ := Rat.sqrt q

/-- `MetricsHistory::calculate_stats` (models.rs lines 708-733): empty
series short-circuit to `MetricStats::default`, otherwise mean, fold
min/max from the infinities, population variance and its square root. -/
def calculate_stats (deque : List TimestampedValue) : MetricStats :=
  if deque.isEmpty then MetricStats.default
  else
    let values := deque.map fun tv => tv.value
    let sum := values.sum
    let count : ℚ := (values.length : ℚ)
    let mean := sum / count
    let mn : WithTop ℚ := values.foldl (fun a b => Min.min a ((b : ℚ) : WithTop ℚ)) ⊤
    let mx : WithBot ℚ := values.foldl (fun a b => Max.max a ((b : ℚ) : WithBot ℚ)) ⊥
    let variance := (values.map fun v => (v - mean) ^ 2).sum / count
    let std_dev := f64_sqrt variance
    { mean := mean, min := mn, max := mx, std_dev := std_dev, count := values.length }

/-! ## Claim C9 -/

/-- C9: on the empty series, `calculate_stats` returns
`count = 0, mean = 0, min = 0, max = 0, std_dev = 0`.  The function is
total (it is a Lean definition), so it never errors: the empty case is
answered by the early `default` return, before any division or square
root is attempted. -/
theorem calculate_stats_empty :
    calculate_stats [] =
      { mean := 0, min := ((0 : ℚ) : WithTop ℚ), max := ((0 : ℚ) : WithBot ℚ), std_dev := 0
        count := 0 } :=
  rfl

/-! ## models.rs / metrics.rs : validation and probe collection -/

/-- First block of `Metrics::validate` (models.rs lines 71-76): clamp a
negative prompt rate, reject an unreasonably high one. -/
def validate_prompt (m : Metrics) : Except String Metrics :=
  if m.prompt_tokens_per_sec < 0 then Except.ok { m with prompt_tokens_per_sec := 0 }
  else if m.prompt_tokens_per_sec > 10000 then
    Except.error "Prompt tokens per second unreasonably high"
  else Except.ok m

/-- Second block of `Metrics::validate` (models.rs lines 78-83): clamp a
negative predicted rate, reject an unreasonably high one. -/
def validate_predicted (m : Metrics) : Except String Metrics :=
  if m.predicted_tokens_per_sec < 0 then Except.ok { m with predicted_tokens_per_sec := 0 }
  else if m.predicted_tokens_per_sec > 1000 then
    Except.error "Predicted tokens per second unreasonably high"
  else Except.ok m

/-- Third block of `Metrics::validate` (models.rs lines 85-90): clamp the
KV-cache usage ratio into `[0, 1]`; this block has no error case. -/
def clamp_kv_cache (m : Metrics) : Metrics :=
  if m.kv_cache_usage_ratio < 0 then { m with kv_cache_usage_ratio := 0 }
  else if m.kv_cache_usage_ratio > 1 then { m with kv_cache_usage_ratio := 1 }
  else m

/-- Fourth block of `Metrics::validate` (models.rs lines 92-97): clamp
negative memory, reject unreasonably high memory (> 1 TB in MB). -/
def validate_memory (m : Metrics) : Except String Metrics :=
  if m.memory_mb < 0 then Except.ok { m with memory_mb := 0 }
  else if m.memory_mb > 1000000 then Except.error "Memory value unreasonably high"
  else Except.ok m

/-- `Metrics::validate` (models.rs lines 70-100), with `&mut self`
modelled by threading the sanitized record through the four blocks in
source order; an `Err` return from a block aborts the rest, exactly as
the source's early `return Err(..)` does. -/
def Metrics.validate (m : Metrics) : Except String Metrics :=
  match validate_prompt m with
  | .error e => .error e
  | .ok m =>
    match validate_predicted m with
    | .error e => .error e
    | .ok m => validate_memory (clamp_kv_cache m)

/-- The sanitized record `validate` returns on success: negative rates
and memory clamped to 0, the KV-cache ratio clamped into `[0, 1]`. -/
def Metrics.sanitized (m : Metrics) : Metrics :=
  { m with
    prompt_tokens_per_sec :=
      if m.prompt_tokens_per_sec < 0 then 0 else m.prompt_tokens_per_sec
    predicted_tokens_per_sec :=
      if m.predicted_tokens_per_sec < 0 then 0 else m.predicted_tokens_per_sec
    kv_cache_usage_ratio :=
      if m.kv_cache_usage_ratio < 0 then 0
      else if m.kv_cache_usage_ratio > 1 then 1
      else m.kv_cache_usage_ratio
    memory_mb := if m.memory_mb < 0 then 0 else m.memory_mb }

/-- Closed form of `Metrics::validate`: the three high thresholds are
checked on the original field values (clamping never affects them), and
on success the record is the sanitized one. -/
theorem validate_eq (m : Metrics) :
    m.validate =
      if m.prompt_tokens_per_sec > 10000 then
        Except.error "Prompt tokens per second unreasonably high"
      else if m.predicted_tokens_per_sec > 1000 then
        Except.error "Predicted tokens per second unreasonably high"
      else if m.memory_mb > 1000000 then Except.error "Memory value unreasonably high"
      else Except.ok m.sanitized := by
  have hprompt : validate_prompt m =
      if m.prompt_tokens_per_sec > 10000 then
        Except.error "Prompt tokens per second unreasonably high"
      else Except.ok { m with prompt_tokens_per_sec :=
        if m.prompt_tokens_per_sec < 0 then 0 else m.prompt_tokens_per_sec } := by
    unfold validate_prompt
    by_cases h0 : m.prompt_tokens_per_sec < 0
    · rw [if_pos h0, if_neg (by linarith), if_pos h0]
    · rw [if_neg h0, if_neg h0]
  by_cases hp : m.prompt_tokens_per_sec > 10000
  · rw [Metrics.validate, hprompt, if_pos hp, if_pos hp]
  rw [Metrics.validate, hprompt, if_neg hp, if_neg hp]
  dsimp only
  set m1 : Metrics := { m with prompt_tokens_per_sec :=
    if m.prompt_tokens_per_sec < 0 then 0 else m.prompt_tokens_per_sec } with hm1
  have hpred : validate_predicted m1 =
      if m.predicted_tokens_per_sec > 1000 then
        Except.error "Predicted tokens per second unreasonably high"
      else Except.ok { m1 with predicted_tokens_per_sec :=
        if m.predicted_tokens_per_sec < 0 then 0 else m.predicted_tokens_per_sec } := by
    unfold validate_predicted
    by_cases h0 : m.predicted_tokens_per_sec < 0
    · rw [show m1.predicted_tokens_per_sec = m.predicted_tokens_per_sec from rfl, if_pos h0,
        if_neg (by linarith), if_pos h0]
    · rw [show m1.predicted_tokens_per_sec = m.predicted_tokens_per_sec from rfl, if_neg h0,
        if_neg h0]
  by_cases hq : m.predicted_tokens_per_sec > 1000
  · rw [hpred, if_pos hq, if_pos hq]
  rw [hpred, if_neg hq, if_neg hq]
  dsimp only
  set m2 : Metrics := { m1 with predicted_tokens_per_sec :=
    if m.predicted_tokens_per_sec < 0 then 0 else m.predicted_tokens_per_sec } with hm2
  have hkv : clamp_kv_cache m2 =
      { m2 with kv_cache_usage_ratio :=
        if m.kv_cache_usage_ratio < 0 then 0
        else if m.kv_cache_usage_ratio > 1 then 1
        else m.kv_cache_usage_ratio } := by
    unfold clamp_kv_cache
    by_cases h0 : m.kv_cache_usage_ratio < 0
    · rw [show m2.kv_cache_usage_ratio = m.kv_cache_usage_ratio from rfl, if_pos h0, if_pos h0]
    · by_cases h1 : m.kv_cache_usage_ratio > 1
      · rw [show m2.kv_cache_usage_ratio = m.kv_cache_usage_ratio from rfl, if_neg h0,
          if_pos h1, if_neg h0, if_pos h1]
      · rw [show m2.kv_cache_usage_ratio = m.kv_cache_usage_ratio from rfl, if_neg h0,
          if_neg h1, if_neg h0, if_neg h1]
  rw [hkv]
  set m3 : Metrics := { m2 with kv_cache_usage_ratio :=
    if m.kv_cache_usage_ratio < 0 then 0
    else if m.kv_cache_usage_ratio > 1 then 1
    else m.kv_cache_usage_ratio } with hm3
  have hmem : m3.memory_mb = m.memory_mb := rfl
  unfold validate_memory
  by_cases h0 : m.memory_mb < 0
  · have h1 : ¬m.memory_mb > 1000000 := by linarith
    rw [hmem, if_pos h0, if_neg h1]
    simp only [Metrics.sanitized, hm3, hm2, hm1]
    simp [h0]
  · by_cases h1 : m.memory_mb > 1000000
    · rw [hmem, if_neg h0, if_pos h1, if_pos h1]
    · rw [hmem, if_neg h0, if_neg h1, if_neg h1]
      simp only [Metrics.sanitized, hm3, hm2, hm1]
      simp [h0]

/-- One entry of the `/running` probe response consumed by
`fetch_all_model_metrics`: the model name, its reported state string,
and the `Metrics` record assembled from the Prometheus values
(metrics.rs lines 295-313). -/
structure ProbedModel where
  model : String
  state : String
  metrics : Metrics
deriving DecidableEq, Repr

/-- The model-collection loop of `fetch_all_model_metrics` (metrics.rs
lines 297-319): every model whose state is "ready" has its metrics
validated — the `?` on `validate` propagates the first error and aborts
the whole probe call — and pushed onto the result list. -/
def collect_model_metrics : List ProbedModel → Except String (List ModelMetrics)
  | [] => .ok []
  | pm :: rest =>
    if pm.state = "ready" then
      match pm.metrics.validate with
      | .error e => .error e
      | .ok sanitized =>
        match collect_model_metrics rest with
        | .error e => .error e
        | .ok ms => .ok ({ model_name := pm.model, metrics := sanitized } :: ms)
    else collect_model_metrics rest

/-! ## Claim C10 -/

/-- C10: metric validation is asymmetric.  `validate` fails exactly when
`prompt_tokens_per_sec > 10000`, `predicted_tokens_per_sec > 1000` or
`memory_mb > 1000000`; otherwise it returns `Ok` with negative rates and
memory silently clamped to 0 and the KV-cache ratio clamped into
`[0, 1]`.  And because `fetch_all_model_metrics` propagates the error,
one failing validation of a ready model makes the whole probe call
fail. -/
theorem metrics_validate_asymmetric_spec (m : Metrics) (running : List ProbedModel)
    (pm : ProbedModel) :
    ((∃ e, m.validate = Except.error e) ↔
        (m.prompt_tokens_per_sec > 10000 ∨ m.predicted_tokens_per_sec > 1000 ∨
          m.memory_mb > 1000000)) ∧
      (¬(m.prompt_tokens_per_sec > 10000 ∨ m.predicted_tokens_per_sec > 1000 ∨
            m.memory_mb > 1000000) →
        m.validate = Except.ok m.sanitized) ∧
      (pm ∈ running → pm.state = "ready" → (∃ e, pm.metrics.validate = Except.error e) →
        ∃ e, collect_model_metrics running = Except.error e) := by
  refine ⟨?_, ?_, ?_⟩
  · rw [validate_eq]
    by_cases hp : m.prompt_tokens_per_sec > 10000
    · simp [hp]
    by_cases hq : m.predicted_tokens_per_sec > 1000
    · simp [hp, hq]
    by_cases hr : m.memory_mb > 1000000
    · simp [hp, hq, hr]
    simp [hp, hq, hr]
  · intro hok
    push_neg at hok
    obtain ⟨hp, hq, hr⟩ := hok
    rw [validate_eq, if_neg (by exact absurd · (not_lt.mpr hp)),
      if_neg (by exact absurd · (not_lt.mpr hq)), if_neg (by exact absurd · (not_lt.mpr hr))]
  · intro hmem hready herr
    induction running with
    | nil => simp at hmem
    | cons x rest ih =>
      rcases List.mem_cons.mp hmem with hx | hx
      · subst hx
        obtain ⟨e, he⟩ := herr
        unfold collect_model_metrics
        rw [if_pos hready, he]
        exact ⟨e, rfl⟩
      · unfold collect_model_metrics
        by_cases hxready : x.state = "ready"
        · rw [if_pos hxready]
          cases hv : x.metrics.validate with
          | error e => exact ⟨e, rfl⟩
          | ok v =>
            obtain ⟨e, he⟩ := ih hx
            rw [he]
            exact ⟨e, rfl⟩
        · rw [if_neg hxready]
          exact ih hx

/-- A ready model whose prompt rate exceeds the 10000 threshold. -/
def badProbedModel : ProbedModel :=
  { model := "m1"
    state := "ready"
    metrics :=
      { prompt_tokens_per_sec := 20000
        predicted_tokens_per_sec := 0
        requests_processing := 0
        requests_deferred := 0
        kv_cache_usage_ratio := 0
        kv_cache_tokens := 0
        n_decode_total := 0
        memory_mb := 0 } }

/-- C10 witness: the single ready model with prompt rate 20000 makes its
own validation and the whole collection fail. -/
theorem metrics_validate_asymmetric_spec_witness :
    (∃ e, badProbedModel.metrics.validate = Except.error e) ∧
      ∃ e, collect_model_metrics [badProbedModel] = Except.error e := by
  have h := metrics_validate_asymmetric_spec badProbedModel.metrics [badProbedModel]
    badProbedModel
  have herr : ∃ e, badProbedModel.metrics.validate = Except.error e := by
    apply h.1.mpr
    left
    norm_num [badProbedModel]
  exact ⟨herr, h.2.2 (List.mem_singleton_self _) rfl herr⟩

end LlamaSwap
